import Mathlib

/-!
Verification of the DiligentCore D3D12 buffer lifecycle
(`Graphics/GraphicsEngineD3D12/src/BufferD3D12Impl.cpp`) and of the compound
shader-source factory (`Graphics/GraphicsTools/src/ShaderSourceFactoryUtils.cpp`).

The C++ code is shallowly embedded: machine integers become `Nat`, enumerations
become inductive types, the sequence of external calls performed by the buffer
constructor (native resource creation, command-context borrowing, submission,
deferred release, descriptor creation) is recorded as an explicit event trace,
and fallible paths return `Except`.  Stateful fields (`m_State`, `m_Desc.Size`)
are threaded explicitly.
-/

set_option autoImplicit false

namespace Diligent

/-- `USAGE` enumeration (the values relevant to `BufferD3D12Impl`). -/
inductive Usage where
  | immutable
  | default
  | dynamic
  | staging
  | unified
  | sparse
deriving DecidableEq, Repr

/-- `BUFFER_MODE` enumeration. -/
inductive BufferMode where
  | undefined
  | formatted
  | structured
  | raw
deriving DecidableEq, Repr

/-- `RESOURCE_STATE` values used by the buffer lifecycle.  `unknown` is the
value `RESOURCE_STATE_UNKNOWN = 0`, the pre-assignment state of the tracker. -/
inductive RState where
  | unknown
  | undefined
  | genericRead
  | copyDest
  | common
deriving DecidableEq, Repr

/-- `BIND_UNIFORM_BUFFER` bit. -/
def BIND_UNIFORM_BUFFER : Nat := 4
/-- `BIND_SHADER_RESOURCE` bit. -/
def BIND_SHADER_RESOURCE : Nat := 8
/-- `BIND_UNORDERED_ACCESS` bit. -/
def BIND_UNORDERED_ACCESS : Nat := 128
/-- `BIND_RAY_TRACING` bit. -/
def BIND_RAY_TRACING : Nat := 1024

/-- `CPU_ACCESS_READ` bit. -/
def CPU_ACCESS_READ : Nat := 1
/-- `CPU_ACCESS_WRITE` bit. -/
def CPU_ACCESS_WRITE : Nat := 2

/-- `D3D12_CONSTANT_BUFFER_DATA_PLACEMENT_ALIGNMENT` (d3d12.h). -/
def D3D12_CONSTANT_BUFFER_DATA_PLACEMENT_ALIGNMENT : Nat := 256
/-- `D3D12_TEXTURE_DATA_PITCH_ALIGNMENT` (d3d12.h). -/
def D3D12_TEXTURE_DATA_PITCH_ALIGNMENT : Nat := 256
/-- `D3D12_REQ_CONSTANT_BUFFER_ELEMENT_COUNT` (d3d12.h). -/
def D3D12_REQ_CONSTANT_BUFFER_ELEMENT_COUNT : Nat := 4096

/-- The fields of `BufferDesc` that the shown code reads or writes. -/
structure BufferDesc where
  size : Nat
  bindFlags : Nat
  usage : Usage
  cpuAccessFlags : Nat
  mode : BufferMode
  elementByteStride : Nat
  immediateContextMask : Nat
deriving DecidableEq, Repr

/-- `BufferData`: optional initial contents.  `hasData` models
`pData != nullptr`; `context` models `pContext` (carrying the queue id that
`GetCommandQueueId()` would return on the supplied device context). -/
structure BufferData where
  hasData : Bool
  dataSize : Nat
  context : Option Nat
deriving DecidableEq, Repr

/-- Success/failure outcomes of the native calls the constructor makes
(`CreateReservedResource`, `CreateCommittedResource` for the backing and the
upload buffer, `ID3D12Resource::Map`). -/
structure DeviceOracle where
  reservedOk : Bool
  committedOk : Bool
  uploadOk : Bool
  mapOk : Bool
deriving DecidableEq, Repr

/-- `D3D12_HEAP_TYPE` values used for buffer placement. -/
inductive HeapType where
  | default
  | upload
  | readback
deriving DecidableEq, Repr

/-- External calls made by the constructor, in program order.  Resource
creation events record the tracked `RState` at the moment of the native call
(the state the code pre-declared before creating the resource). -/
inductive Event where
  | createReserved (stateAtCall : RState)
  | createCommitted (heap : HeapType) (stateAtCall : RState)
  | createUploadBuffer
  | mapUpload
  | memcpyData (n : Nat)
  | unmapUpload
  | allocCommandContext (q : Nat)
  | copyResource
  | closeAndExecuteTransient (q : Nat)
  | safeReleaseDeviceObject (mask : Nat)
  | allocateDescriptors
  | createCBVNative (sizeInBytes : Nat)
deriving DecidableEq, Repr

/-- The constructed `BufferD3D12Impl` object: descriptor (with the padded
size), tracked resource state, and whether `m_pd3d12Resource` is non-null. -/
structure BufferObject where
  desc : BufferDesc
  state : RState
  hasD3D12Resource : Bool
deriving DecidableEq, Repr

/-- Diligent `AlignUp`: round `v` up to a multiple of `a`. -/
def alignUp (v a : Nat) : Nat :=
  ((v + a - 1) / a) * a

/-- `PlatformMisc::GetLSB`: index of the least significant set bit
(0 for input 0, which the callers exclude). -/
def getLSB (n : Nat) : Nat :=
  if h : n = 0 then 0
  else if n % 2 = 1 then 0
  else 1 + getLSB (n / 2)
decreasing_by exact Nat.div_lt_self (Nat.pos_of_ne_zero h) (by norm_num)

/-- Lines 64-69: buffer alignment from bind flags and usage.
`BufferAlignment = 1`; uniform-buffer bind flag forces the constant-buffer
placement alignment; staging usage with CPU access flags equal to
`CPU_ACCESS_WRITE` forces `max` with the texture-data-pitch alignment. -/
def computeBufferAlignment (d : BufferDesc) : Nat :=
  let a := if d.bindFlags &&& BIND_UNIFORM_BUFFER ≠ 0 then
             D3D12_CONSTANT_BUFFER_DATA_PLACEMENT_ALIGNMENT
           else 1
  if d.usage = Usage.staging ∧ d.cpuAccessFlags = CPU_ACCESS_WRITE then
    max a D3D12_TEXTURE_DATA_PITCH_ALIGNMENT
  else a

/-- Lines 124-128: heap selection for the committed-resource path.
Staging picks readback exactly when `CPUAccessFlags == CPU_ACCESS_READ`,
otherwise upload; every other usage gets the default (device-local) heap. -/
def heapPlacement (d : BufferDesc) : HeapType :=
  if d.usage = Usage.staging then
    (if d.cpuAccessFlags = CPU_ACCESS_READ then HeapType.readback else HeapType.upload)
  else HeapType.default

/-- Lines 130-133: the `SetState` performed right after heap selection;
the default heap leaves the tracked state untouched (`cur`). -/
def heapPlacementState (h : HeapType) (cur : RState) : RState :=
  match h with
  | HeapType.readback => RState.copyDest
  | HeapType.upload => RState.genericRead
  | HeapType.default => cur

/-- Lines 139-141: `InitialDataSize = (pBuffData && pBuffData->pData) ?
min(DataSize, Width) : 0` where `Width` is the padded buffer size. -/
def initialDataSize (bd : Option BufferData) (width : Nat) : Nat :=
  match bd with
  | some b => if b.hasData then min b.dataSize width else 0
  | none => 0

/-- Lines 149-151: the queue for the initial-data upload: the supplied
context's queue id if one was given, else the least significant set bit of
`ImmediateContextMask`. -/
def uploadCmdQueueInd (bd : Option BufferData) (mask : Nat) : Nat :=
  match bd with
  | some b =>
    (match b.context with
     | some q => q
     | none => getLSB mask)
  | none => getLSB mask

/-- Lines 130-147: the tracked state after the three `SetState` steps of the
committed path: heap-derived state, overridden to `copyDest` when initial data
is present, and defaulted to `undefined` when still unknown. -/
def committedInitState (d : BufferDesc) (bd : Option BufferData) : RState :=
  if (if 0 < initialDataSize bd d.size then RState.copyDest
      else heapPlacementState (heapPlacement d) RState.unknown) = RState.unknown then
    RState.undefined
  else
    if 0 < initialDataSize bd d.size then RState.copyDest
    else heapPlacementState (heapPlacement d) RState.unknown

/-- Lines 387-405, `BufferD3D12Impl::CreateCBV`: returns the `VERIFY` check
outcomes (offset pitch-aligned, range in bounds) and the `SizeInBytes`
passed to `CreateConstantBufferView`: the size (defaulted, when zero, to
`min(Size - Offset, D3D12_REQ_CONSTANT_BUFFER_ELEMENT_COUNT * 16)`) rounded
up to the pitch alignment. -/
def createCBV (bufferSize offset size : Nat) : (Bool × Bool) × Nat :=
  let offsetAligned := decide (offset % D3D12_TEXTURE_DATA_PITCH_ALIGNMENT = 0)
  let rangeOk := decide (offset + size ≤ bufferSize)
  let effSize := if size = 0 then
      min (bufferSize - offset) (D3D12_REQ_CONSTANT_BUFFER_ELEMENT_COUNT * 16)
    else size
  ((offsetAligned, rangeOk), alignUp effSize D3D12_TEXTURE_DATA_PITCH_ALIGNMENT)

/-- Lines 241-245: the eager default-CBV creation performed for uniform
buffers at the end of the committed path (`CreateCBV` with default offset 0
and size 0). -/
def cbvEventsFor (d : BufferDesc) : List Event :=
  if d.bindFlags &&& BIND_UNIFORM_BUFFER ≠ 0 then
    [Event.allocateDescriptors, Event.createCBVNative (createCBV d.size 0 0).2]
  else []

/-- Lines 122-246: the committed-resource branch of the constructor, for a
descriptor `d` whose size is already padded.  Emits the event trace in program
order: backing-resource creation, then (when initial data is present) upload
buffer creation, map/memcpy/unmap, command-context borrow, copy record,
close-and-execute submission, deferred release tagged with the single queue
bit, and finally the eager CBV creation for uniform buffers. -/
def committedBufferPath (dev : DeviceOracle) (d : BufferDesc) (bd : Option BufferData) :
    Except String BufferObject × List Event :=
  if dev.committedOk then
    if 0 < initialDataSize bd d.size then
      if dev.uploadOk then
        if dev.mapOk then
          (Except.ok { desc := d, state := committedInitState d bd, hasD3D12Resource := true },
           Event.createCommitted (heapPlacement d) (committedInitState d bd) ::
             Event.createUploadBuffer :: Event.mapUpload ::
             Event.memcpyData (initialDataSize bd d.size) ::
             Event.unmapUpload ::
             Event.allocCommandContext (uploadCmdQueueInd bd d.immediateContextMask) ::
             Event.copyResource ::
             Event.closeAndExecuteTransient (uploadCmdQueueInd bd d.immediateContextMask) ::
             Event.safeReleaseDeviceObject (2 ^ uploadCmdQueueInd bd d.immediateContextMask) ::
             cbvEventsFor d)
        else
          (Except.error "Failed to map upload buffer",
           [Event.createCommitted (heapPlacement d) (committedInitState d bd),
            Event.createUploadBuffer, Event.mapUpload])
      else
        (Except.error "Failed to create upload buffer",
         [Event.createCommitted (heapPlacement d) (committedInitState d bd),
          Event.createUploadBuffer])
    else
      (Except.ok { desc := d, state := committedInitState d bd, hasD3D12Resource := true },
       Event.createCommitted (heapPlacement d) (committedInitState d bd) :: cbvEventsFor d)
  else
    (Except.error "Failed to create D3D12 buffer",
     [Event.createCommitted (heapPlacement d) (committedInitState d bd)])

/-- Line 71: `m_Desc.Size = AlignUp(m_Desc.Size, BufferAlignment)`.  Only the
size field changes; usage, flags and mode are untouched, so the later branch
conditions read the original values. -/
def alignedDesc (desc0 : BufferDesc) : BufferDesc :=
  { desc0 with size := alignUp desc0.size (computeBufferAlignment desc0) }

/-- Lines 44-250, `BufferD3D12Impl::BufferD3D12Impl` (the allocating
constructor).  `ValidateBufferInitData` is defined outside the shown sources
and is modelled as a no-op.  Returns the constructed object (or the thrown
error message) together with the trace of external calls. -/
def constructBuffer (dev : DeviceOracle) (desc0 : BufferDesc) (bd : Option BufferData) :
    Except String BufferObject × List Event :=
  if desc0.usage = Usage.unified then
    (Except.error "Unified resources are not supported in Direct3D12", [])
  else
    if desc0.usage = Usage.dynamic ∧ desc0.bindFlags &&& BIND_UNORDERED_ACCESS = 0 ∧
       (desc0.mode = BufferMode.undefined ∨ desc0.mode = BufferMode.structured) then
      (Except.ok { desc := alignedDesc desc0, state := RState.genericRead,
                   hasD3D12Resource := false }, [])
    else if desc0.usage = Usage.sparse then
      -- CreateReservedResource is called while the tracked state is still
      -- unknown; SetState(RESOURCE_STATE_UNDEFINED) follows the call.
      if dev.reservedOk then
        (Except.ok { desc := alignedDesc desc0, state := RState.undefined,
                     hasD3D12Resource := true },
         [Event.createReserved RState.unknown])
      else
        (Except.error "Failed to create D3D12 buffer", [Event.createReserved RState.unknown])
    else
      committedBufferPath dev (alignedDesc desc0) bd

/-- `IsInKnownState`.  Modelled from the spec: the resource-state tracker
(`BufferBase`/`DeviceObjectBase`, not among the shown sources) starts at the
`unknown` (zero) state, `SetState` is an unconditional overwrite (spec 4.3),
and `IsInKnownState` reports whether a state other than `unknown` has been
assigned (the meaning required by lines 146-147 of `BufferD3D12Impl.cpp`). -/
def isInKnownState (b : BufferObject) : Bool :=
  decide (b.state ≠ RState.unknown)

/-- The fields of `D3D12_RESOURCE_DESC` that `BufferDescFromD3D12Resource`
inspects on an attached native buffer. -/
structure D3D12ResourceDesc where
  width : Nat
  allowUnorderedAccess : Bool
  denyShaderResource : Bool
deriving DecidableEq, Repr

/-- Lines 252-293, `BufferDescFromD3D12Resource`: take the size from the
native resource and reconcile the bind flags with its creation flags. -/
def bufferDescFromD3D12Resource (bd : BufferDesc) (r : D3D12ResourceDesc) : BufferDesc :=
  let b1 : BufferDesc := { bd with size := r.width }
  let b2 : BufferDesc :=
    if r.allowUnorderedAccess then
      { b1 with bindFlags := b1.bindFlags ||| BIND_UNORDERED_ACCESS }
    else b1
  if r.denyShaderResource then
    { b2 with bindFlags := b2.bindFlags &&& (0xFFFFFFFF ^^^ BIND_SHADER_RESOURCE) }
  else
    { b2 with bindFlags := b2.bindFlags ||| BIND_SHADER_RESOURCE }

/-- Lines 295-319: the wrapping constructor that attaches an existing native
buffer.  It stores the resource handle and performs `SetState(InitialState)`
with the caller-supplied state. -/
def constructBufferFromResource (desc0 : BufferDesc) (initialState : RState)
    (r : D3D12ResourceDesc) : BufferObject :=
  { desc := bufferDescFromD3D12Resource desc0 r
    state := initialState
    hasD3D12Resource := true }

/-- `BUFFER_VIEW_TYPE` values. -/
inductive BufferViewType where
  | undefined
  | shaderResource
  | unorderedAccess
deriving DecidableEq, Repr

/-- The fields of `BufferViewDesc` the view-creation path inspects. -/
structure BufferViewDesc where
  viewType : BufferViewType
  byteOffset : Nat
  byteWidth : Nat
deriving DecidableEq, Repr

/-- Modelled from the spec: `ValidateAndCorrectBufferViewDesc`
(`GraphicsAccessories`, not among the shown sources) validates the view
description against the buffer descriptor (mode, stride, offset/size) and
throws a recoverable error on a bad combination; in particular a buffer whose
mode requires an element stride (raw/structured/formatted under a
shader-visible bind flag) but whose stride is zero fails validation. -/
def validateAndCorrectBufferViewDesc (d : BufferDesc) (v : BufferViewDesc) :
    Except String BufferViewDesc :=
  if d.mode ≠ BufferMode.undefined ∧ d.elementByteStride = 0 ∧
     d.bindFlags &&& (BIND_SHADER_RESOURCE ||| BIND_UNORDERED_ACCESS) ≠ 0 then
    Except.error "Buffer element byte stride is zero"
  else if d.size < v.byteOffset + v.byteWidth then
    Except.error "Buffer view range is out of bounds"
  else
    Except.ok v

/-- Lines 327-363, `BufferD3D12Impl::CreateViewInternal`: creates an SRV or a
UAV on demand; any `std::runtime_error` thrown by view validation is caught,
an error is logged, and the out pointer stays null.  Result: the (unchanged)
buffer, the created view if any, and the emitted error-log lines. -/
def createViewInternal (b : BufferObject) (v : BufferViewDesc) :
    BufferObject × Option BufferViewDesc × List String :=
  match v.viewType with
  | BufferViewType.unorderedAccess =>
    (match validateAndCorrectBufferViewDesc b.desc v with
     | Except.ok v2 => (b, some v2, [])
     | Except.error _ => (b, none, ["Failed to create view"]))
  | BufferViewType.shaderResource =>
    (match validateAndCorrectBufferViewDesc b.desc v with
     | Except.ok v2 => (b, some v2, [])
     | Except.error _ => (b, none, ["Failed to create view"]))
  | BufferViewType.undefined => (b, none, [])

end Diligent

namespace ShaderSourceFactory

/-- A child `IShaderSourceInputStreamFactory`: a lookup from a file name to an
optionally produced stream (streams are abstracted as `Nat` handles).  The
compound factory always invokes children with the SILENT flag, which only
affects the child's own logging and is therefore not a parameter here. -/
def ChildFactory : Type := String → Option Nat

/-- `CompoundShaderSourceFactoryCreateInfo`: the (possibly null) array of
child factories, entries of which may themselves be null, and the file
substitution pairs. -/
structure CompoundCI where
  factories : Option (List (Option ChildFactory))
  fileSubstitutes : List (String × String)

/-- The state built by the `CompoundShaderSourceFactory` constructor. -/
structure CompoundFactory where
  pFactories : List (Option ChildFactory)
  fileSubstituteMap : List (String × String)

/-- `std::unordered_map::emplace`: inserts only when the key is absent. -/
def emplaceSubstitute (m : List (String × String)) (kv : String × String) :
    List (String × String) :=
  if m.any (fun p => p.1 = kv.1) then m else m ++ [kv]

/-- Lines 49-69, the `CompoundShaderSourceFactory` constructor: copy the child
factory pointers in order (keeping null entries) when the array is non-null,
and `emplace` every substitution pair. -/
def createCompoundFactory (ci : CompoundCI) : CompoundFactory :=
  { pFactories :=
      match ci.factories with
      | some fs => fs
      | none => []
    fileSubstituteMap := ci.fileSubstitutes.foldl emplaceSubstitute [] }

/-- Lines 84-89: apply the file substitution map once: when the map is
non-empty and contains the name, replace it with the substitute. -/
def substituteName (m : List (String × String)) (name : String) : String :=
  if m.isEmpty then name
  else
    match m.find? (fun p => p.1 = name) with
    | some p => p.2
    | none => name

/-- Lines 91-95, the factory loop: while the out stream is still null, skip
null child factories and ask each remaining child for a stream. -/
def consultLoop : List (Option ChildFactory) → String → Option Nat → Option Nat
  | [], _, acc => acc
  | f :: rest, n, acc =>
    match acc with
    | some s => some s
    | none =>
      match f with
      | some ff => consultLoop rest n (ff n)
      | none => consultLoop rest n none

/-- Lines 79-101, `CompoundShaderSourceFactory::CreateInputStream2`: substitute
the name, consult the children, and log the failure message (for the possibly
substituted name) when no stream was produced and the SILENT flag was passed. -/
def createInputStream2 (fac : CompoundFactory) (name : String) (silent : Bool) :
    Option Nat × List String :=
  (consultLoop fac.pFactories (substituteName fac.fileSubstituteMap name) none,
   if consultLoop fac.pFactories (substituteName fac.fileSubstituteMap name) none = none ∧
      silent = true then
     ["Failed to create input stream for source file " ++
       substituteName fac.fileSubstituteMap name]
   else [])

/-- The specification-level description of the child consultation: the first
non-null child (in construction order) that produces a stream wins. -/
def firstChildStream : List (Option ChildFactory) → String → Option Nat
  | [], _ => none
  | none :: rest, n => firstChildStream rest n
  | some f :: rest, n =>
    match f n with
    | some s => some s
    | none => firstChildStream rest n

end ShaderSourceFactory

namespace Diligent

theorem le_alignUp (s a : Nat) (ha : 0 < a) : s ≤ alignUp s a := by
  unfold alignUp
  have hd := Nat.div_add_mod (s + a - 1) a
  have hm : (s + a - 1) % a < a := Nat.mod_lt _ ha
  rw [Nat.mul_comm] at hd
  generalize hq : (s + a - 1) / a * a = m at hd ⊢
  generalize hr : (s + a - 1) % a = r at hd hm
  omega

theorem alignUp_lt (s a : Nat) (ha : 0 < a) : alignUp s a < s + a := by
  unfold alignUp
  have hd := Nat.div_add_mod (s + a - 1) a
  rw [Nat.mul_comm] at hd
  generalize hq : (s + a - 1) / a * a = m at hd ⊢
  generalize hr : (s + a - 1) % a = r at hd
  omega

theorem dvd_alignUp (s a : Nat) : a ∣ alignUp s a :=
  Dvd.intro_left _ rfl

/-- Claim C2: for every buffer constructed with dynamic usage, without the
unordered-access bind flag, and with undefined or structured mode, the
constructor performs no native backing allocation (the resource handle stays
null and the event trace is empty) and sets the tracked state to GenericRead. -/
theorem dynamic_suballocated_no_backing (dev : DeviceOracle) (desc0 : BufferDesc)
    (bd : Option BufferData)
    (hu : desc0.usage = Usage.dynamic)
    (huav : desc0.bindFlags &&& BIND_UNORDERED_ACCESS = 0)
    (hmode : desc0.mode = BufferMode.undefined ∨ desc0.mode = BufferMode.structured) :
    ∃ obj : BufferObject,
      constructBuffer dev desc0 bd = (Except.ok obj, []) ∧
      obj.hasD3D12Resource = false ∧ obj.state = RState.genericRead := by
  refine ⟨{ desc := alignedDesc desc0,
            state := RState.genericRead, hasD3D12Resource := false }, ?_, rfl, rfl⟩
  have hne : desc0.usage ≠ Usage.unified := by rw [hu]; intro h; exact Usage.noConfusion h
  unfold constructBuffer
  rw [if_neg hne, if_pos ⟨hu, huav, hmode⟩]

/-- Witness for C2 at a concrete dynamic uniform buffer. -/
theorem dynamic_suballocated_no_backing_witness :
    ∃ obj : BufferObject,
      constructBuffer
        { reservedOk := true, committedOk := true, uploadOk := true, mapOk := true }
        { size := 100, bindFlags := BIND_UNIFORM_BUFFER, usage := Usage.dynamic,
          cpuAccessFlags := CPU_ACCESS_WRITE, mode := BufferMode.undefined,
          elementByteStride := 0, immediateContextMask := 1 }
        none = (Except.ok obj, []) ∧
      obj.hasD3D12Resource = false ∧ obj.state = RState.genericRead :=
  dynamic_suballocated_no_backing _ _ _ rfl (by decide) (Or.inl rfl)

/-- The allocating constructor reaches the committed-resource branch whenever
usage is not unified, not sparse, and not on the dynamic-suballocation path. -/
theorem constructBuffer_committed (dev : DeviceOracle) (desc0 : BufferDesc)
    (bd : Option BufferData)
    (h1 : desc0.usage ≠ Usage.unified)
    (h2 : ¬(desc0.usage = Usage.dynamic ∧ desc0.bindFlags &&& BIND_UNORDERED_ACCESS = 0 ∧
            (desc0.mode = BufferMode.undefined ∨ desc0.mode = BufferMode.structured)))
    (h3 : desc0.usage ≠ Usage.sparse) :
    constructBuffer dev desc0 bd =
      committedBufferPath dev (alignedDesc desc0) bd := by
  unfold constructBuffer
  rw [if_neg h1, if_neg h2, if_neg h3]

/-- When initial data is present, the tracked state after the committed-path
`SetState` sequence is CopyDestination. -/
theorem committedInitState_withData (d : BufferDesc) (bd : Option BufferData)
    (hd : 0 < initialDataSize bd d.size) :
    committedInitState d bd = RState.copyDest := by
  unfold committedInitState
  simp [hd]

/-- The committed path with non-empty initial data and successful native
calls: the full event trace in program order. -/
theorem committedBufferPath_withData (dev : DeviceOracle) (d : BufferDesc)
    (bd : Option BufferData)
    (hc : dev.committedOk = true) (hu : dev.uploadOk = true) (hm : dev.mapOk = true)
    (hd : 0 < initialDataSize bd d.size) :
    committedBufferPath dev d bd =
      (Except.ok { desc := d, state := RState.copyDest, hasD3D12Resource := true },
       Event.createCommitted (heapPlacement d) RState.copyDest ::
         Event.createUploadBuffer :: Event.mapUpload ::
         Event.memcpyData (initialDataSize bd d.size) :: Event.unmapUpload ::
         Event.allocCommandContext (uploadCmdQueueInd bd d.immediateContextMask) ::
         Event.copyResource ::
         Event.closeAndExecuteTransient (uploadCmdQueueInd bd d.immediateContextMask) ::
         Event.safeReleaseDeviceObject (2 ^ uploadCmdQueueInd bd d.immediateContextMask) ::
         cbvEventsFor d) := by
  have hst := committedInitState_withData d bd hd
  unfold committedBufferPath
  rw [hst]
  simp [hc, hu, hm, hd]

/-- The committed path without initial data and with a successful backing
allocation. -/
theorem committedBufferPath_noData (dev : DeviceOracle) (d : BufferDesc)
    (bd : Option BufferData)
    (hc : dev.committedOk = true) (hd : initialDataSize bd d.size = 0) :
    committedBufferPath dev d bd =
      (Except.ok { desc := d, state := committedInitState d bd, hasD3D12Resource := true },
       Event.createCommitted (heapPlacement d) (committedInitState d bd) ::
         cbvEventsFor d) := by
  unfold committedBufferPath
  simp [hc, hd]

theorem heapPlacement_default (d : BufferDesc) (h : d.usage ≠ Usage.staging) :
    heapPlacement d = HeapType.default := by
  unfold heapPlacement
  rw [if_neg h]

@[simp] theorem alignedDesc_usage (d : BufferDesc) : (alignedDesc d).usage = d.usage := rfl

@[simp] theorem alignedDesc_bindFlags (d : BufferDesc) :
    (alignedDesc d).bindFlags = d.bindFlags := rfl

@[simp] theorem alignedDesc_cpuAccessFlags (d : BufferDesc) :
    (alignedDesc d).cpuAccessFlags = d.cpuAccessFlags := rfl

@[simp] theorem alignedDesc_mode (d : BufferDesc) : (alignedDesc d).mode = d.mode := rfl

@[simp] theorem alignedDesc_mask (d : BufferDesc) :
    (alignedDesc d).immediateContextMask = d.immediateContextMask := rfl

theorem alignedDesc_size (d : BufferDesc) :
    (alignedDesc d).size = alignUp d.size (computeBufferAlignment d) := rfl

theorem computeBufferAlignment_uniform (d : BufferDesc)
    (h : d.bindFlags &&& BIND_UNIFORM_BUFFER ≠ 0) :
    computeBufferAlignment d = D3D12_CONSTANT_BUFFER_DATA_PLACEMENT_ALIGNMENT := by
  unfold computeBufferAlignment
  simp [h, D3D12_CONSTANT_BUFFER_DATA_PLACEMENT_ALIGNMENT, D3D12_TEXTURE_DATA_PITCH_ALIGNMENT]

/-- Without initial data, the committed-path state is the heap-derived state,
defaulted to Undefined when the heap left it unassigned. -/
theorem committedInitState_noData (d : BufferDesc) (bd : Option BufferData)
    (hd0 : initialDataSize bd d.size = 0) :
    committedInitState d bd =
      (if heapPlacementState (heapPlacement d) RState.unknown = RState.unknown then
         RState.undefined
       else heapPlacementState (heapPlacement d) RState.unknown) := by
  unfold committedInitState
  simp [hd0]

/-- Claim C3: for a buffer constructed with non-empty initial data and a
committed device-local backing resource, the tracked state is already
CopyDestination at the moment the backing resource is created (the creation
event records it), and the state is still CopyDestination when construction
completes. -/
theorem initial_data_state_copy_dest (dev : DeviceOracle) (desc0 : BufferDesc)
    (bd : Option BufferData)
    (h1 : desc0.usage ≠ Usage.unified)
    (h2 : ¬(desc0.usage = Usage.dynamic ∧ desc0.bindFlags &&& BIND_UNORDERED_ACCESS = 0 ∧
            (desc0.mode = BufferMode.undefined ∨ desc0.mode = BufferMode.structured)))
    (h3 : desc0.usage ≠ Usage.sparse)
    (h4 : desc0.usage ≠ Usage.staging)
    (hc : dev.committedOk = true) (hup : dev.uploadOk = true) (hmp : dev.mapOk = true)
    (hd : 0 < initialDataSize bd (alignedDesc desc0).size) :
    ∃ (obj : BufferObject) (tr : List Event),
      constructBuffer dev desc0 bd = (Except.ok obj, tr) ∧
      tr.head? = some (Event.createCommitted HeapType.default RState.copyDest) ∧
      obj.state = RState.copyDest := by
  rw [constructBuffer_committed dev desc0 bd h1 h2 h3,
      committedBufferPath_withData dev _ bd hc hup hmp hd]
  refine ⟨_, _, rfl, ?_, rfl⟩
  have hp : heapPlacement (alignedDesc desc0) = HeapType.default :=
    heapPlacement_default _ h4
  rw [hp]
  rfl

/-- Witness for C3: a 256-byte default-usage buffer with 256 bytes of initial
data ends construction in the CopyDestination state, created as such. -/
theorem initial_data_state_copy_dest_witness :
    ∃ (obj : BufferObject) (tr : List Event),
      constructBuffer
        { reservedOk := true, committedOk := true, uploadOk := true, mapOk := true }
        { size := 256, bindFlags := BIND_SHADER_RESOURCE, usage := Usage.default,
          cpuAccessFlags := 0, mode := BufferMode.undefined, elementByteStride := 0,
          immediateContextMask := 1 }
        (some { hasData := true, dataSize := 256, context := none }) =
        (Except.ok obj, tr) ∧
      tr.head? = some (Event.createCommitted HeapType.default RState.copyDest) ∧
      obj.state = RState.copyDest :=
  initial_data_state_copy_dest
    { reservedOk := true, committedOk := true, uploadOk := true, mapOk := true }
    { size := 256, bindFlags := BIND_SHADER_RESOURCE, usage := Usage.default,
      cpuAccessFlags := 0, mode := BufferMode.undefined, elementByteStride := 0,
      immediateContextMask := 1 }
    (some { hasData := true, dataSize := 256, context := none })
    (by decide) (by decide) (by decide) (by decide) rfl rfl rfl (by decide)

/-- Claim C1: for a buffer constructed with non-empty initial data and a
committed device-local backing resource, the upload pipeline borrows a
command context for queue `q` (the supplied context's queue id when one was
given, else the least significant set bit of the queue-affinity mask),
records the copy, submits via the close-and-execute transient path for `q`,
and only then hands the staging buffer to the deferred-release mechanism
tagged with exactly the bit `2 ^ q`; no release event precedes the
submission. -/
theorem upload_submit_before_release (dev : DeviceOracle) (desc0 : BufferDesc)
    (b : BufferData)
    (h1 : desc0.usage ≠ Usage.unified)
    (h2 : ¬(desc0.usage = Usage.dynamic ∧ desc0.bindFlags &&& BIND_UNORDERED_ACCESS = 0 ∧
            (desc0.mode = BufferMode.undefined ∨ desc0.mode = BufferMode.structured)))
    (h3 : desc0.usage ≠ Usage.sparse)
    (h4 : desc0.usage ≠ Usage.staging)
    (hc : dev.committedOk = true) (hup : dev.uploadOk = true) (hmp : dev.mapOk = true)
    (hd : 0 < initialDataSize (some b) (alignedDesc desc0).size) :
    ∃ (obj : BufferObject) (pre post : List Event) (q : Nat),
      (b.context = none → q = getLSB desc0.immediateContextMask) ∧
      (∀ c, b.context = some c → q = c) ∧
      constructBuffer dev desc0 (some b) =
        (Except.ok obj,
         pre ++
           (Event.allocCommandContext q :: Event.copyResource ::
            Event.closeAndExecuteTransient q ::
            [Event.safeReleaseDeviceObject (2 ^ q)]) ++ post) ∧
      (∀ m : Nat, Event.safeReleaseDeviceObject m ∉ pre) ∧
      (∀ m : Nat, Event.safeReleaseDeviceObject m ∉ post) := by
  rw [constructBuffer_committed dev desc0 (some b) h1 h2 h3,
      committedBufferPath_withData dev _ (some b) hc hup hmp hd]
  refine ⟨_,
    [Event.createCommitted (heapPlacement (alignedDesc desc0)) RState.copyDest,
     Event.createUploadBuffer, Event.mapUpload,
     Event.memcpyData (initialDataSize (some b) (alignedDesc desc0).size),
     Event.unmapUpload],
    cbvEventsFor (alignedDesc desc0),
    uploadCmdQueueInd (some b) desc0.immediateContextMask, ?_, ?_, rfl, ?_, ?_⟩
  · intro hb
    simp [uploadCmdQueueInd, hb]
  · intro c hb
    simp [uploadCmdQueueInd, hb]
  · intro m
    simp
  · intro m
    unfold cbvEventsFor
    split_ifs
    · simp
    · simp

/-- Witness for C1: the 256-byte default-usage buffer with initial data and no
supplied context uploads on queue 0 (bit 0 of the affinity mask). -/
theorem upload_submit_before_release_witness :
    ∃ (obj : BufferObject) (pre post : List Event) (q : Nat),
      (({ hasData := true, dataSize := 256, context := none } : BufferData).context = none →
        q = getLSB (1 : Nat)) ∧
      (∀ c, ({ hasData := true, dataSize := 256, context := none } : BufferData).context =
              some c → q = c) ∧
      constructBuffer
        { reservedOk := true, committedOk := true, uploadOk := true, mapOk := true }
        { size := 256, bindFlags := BIND_SHADER_RESOURCE, usage := Usage.default,
          cpuAccessFlags := 0, mode := BufferMode.undefined, elementByteStride := 0,
          immediateContextMask := 1 }
        (some { hasData := true, dataSize := 256, context := none }) =
        (Except.ok obj,
         pre ++
           (Event.allocCommandContext q :: Event.copyResource ::
            Event.closeAndExecuteTransient q ::
            [Event.safeReleaseDeviceObject (2 ^ q)]) ++ post) ∧
      (∀ m : Nat, Event.safeReleaseDeviceObject m ∉ pre) ∧
      (∀ m : Nat, Event.safeReleaseDeviceObject m ∉ post) :=
  upload_submit_before_release
    { reservedOk := true, committedOk := true, uploadOk := true, mapOk := true }
    { size := 256, bindFlags := BIND_SHADER_RESOURCE, usage := Usage.default,
      cpuAccessFlags := 0, mode := BufferMode.undefined, elementByteStride := 0,
      immediateContextMask := 1 }
    { hasData := true, dataSize := 256, context := none }
    (by decide) (by decide) (by decide) (by decide) rfl rfl rfl (by decide)

/-- Claim C4: construction with unified usage throws a fatal configuration
error immediately: the result is the error, no event is emitted (so no native
resource is created), and no buffer object is returned. -/
theorem unified_usage_fatal (dev : DeviceOracle) (desc0 : BufferDesc) (bd : Option BufferData)
    (hu : desc0.usage = Usage.unified) :
    constructBuffer dev desc0 bd =
      (Except.error "Unified resources are not supported in Direct3D12", []) := by
  unfold constructBuffer
  rw [if_pos hu]

/-- Witness for C4 at a concrete unified-usage request. -/
theorem unified_usage_fatal_witness :
    constructBuffer
      { reservedOk := true, committedOk := true, uploadOk := true, mapOk := true }
      { size := 256, bindFlags := 0, usage := Usage.unified, cpuAccessFlags := 0,
        mode := BufferMode.undefined, elementByteStride := 0, immediateContextMask := 1 }
      none = (Except.error "Unified resources are not supported in Direct3D12", []) :=
  unified_usage_fatal _ _ _ rfl

/-- Counterexample to C5 as stated: a staging buffer requesting both CPU read
and CPU write access (flags 1 ||| 2 = 3) is placed in the upload heap with
initial state GenericRead — not in the readback heap with CopyDestination as
the read-takes-priority reading of the decision table would require.  The
code tests `CPUAccessFlags == CPU_ACCESS_READ` exactly. -/
theorem staging_read_write_goes_to_upload :
    constructBuffer
        { reservedOk := true, committedOk := true, uploadOk := true, mapOk := true }
        { size := 256, bindFlags := 0, usage := Usage.staging,
          cpuAccessFlags := CPU_ACCESS_READ ||| CPU_ACCESS_WRITE,
          mode := BufferMode.undefined, elementByteStride := 0,
          immediateContextMask := 1 }
        none =
      (Except.ok
        { desc := { size := 256, bindFlags := 0, usage := Usage.staging,
                    cpuAccessFlags := 3, mode := BufferMode.undefined,
                    elementByteStride := 0, immediateContextMask := 1 },
          state := RState.genericRead, hasD3D12Resource := true },
       [Event.createCommitted HeapType.upload RState.genericRead]) ∧
    HeapType.upload ≠ HeapType.readback ∧ RState.genericRead ≠ RState.copyDest :=
  ⟨rfl, by decide, by decide⟩

/-- Claim C5 (amended): for a staging buffer allocating a committed backing
resource (no initial data supplied), the readback rule applies exactly when
the CPU access flags equal CPU-read: then the resource is created in the
host-readback pool with initial tracked state CopyDestination; with any other
access flags — in particular CPU-write alone or combined with CPU-read — it
is created in the host-upload pool with initial tracked state GenericRead. -/
theorem staging_heap_placement (dev : DeviceOracle) (desc0 : BufferDesc)
    (bd : Option BufferData)
    (hst : desc0.usage = Usage.staging)
    (hc : dev.committedOk = true)
    (hd0 : initialDataSize bd (alignedDesc desc0).size = 0) :
    ∃ (obj : BufferObject) (tr : List Event),
      constructBuffer dev desc0 bd = (Except.ok obj, tr) ∧
      (desc0.cpuAccessFlags = CPU_ACCESS_READ →
        tr.head? = some (Event.createCommitted HeapType.readback RState.copyDest) ∧
        obj.state = RState.copyDest) ∧
      (desc0.cpuAccessFlags ≠ CPU_ACCESS_READ →
        tr.head? = some (Event.createCommitted HeapType.upload RState.genericRead) ∧
        obj.state = RState.genericRead) := by
  have h1 : desc0.usage ≠ Usage.unified := by rw [hst]; intro h; exact Usage.noConfusion h
  have h2 : ¬(desc0.usage = Usage.dynamic ∧ desc0.bindFlags &&& BIND_UNORDERED_ACCESS = 0 ∧
      (desc0.mode = BufferMode.undefined ∨ desc0.mode = BufferMode.structured)) := by
    intro h
    rw [hst] at h
    exact Usage.noConfusion h.1
  have h3 : desc0.usage ≠ Usage.sparse := by rw [hst]; intro h; exact Usage.noConfusion h
  rw [constructBuffer_committed dev desc0 bd h1 h2 h3,
      committedBufferPath_noData dev _ bd hc hd0]
  by_cases hr : desc0.cpuAccessFlags = CPU_ACCESS_READ
  · have hp : heapPlacement (alignedDesc desc0) = HeapType.readback := by
      unfold heapPlacement
      simp [hst, hr]
    have hs : committedInitState (alignedDesc desc0) bd = RState.copyDest := by
      rw [committedInitState_noData _ bd hd0, hp]
      decide
    exact ⟨_, _, rfl, fun _ => ⟨by simp [hp, hs], hs⟩, fun hcon => absurd hr hcon⟩
  · have hp : heapPlacement (alignedDesc desc0) = HeapType.upload := by
      unfold heapPlacement
      simp [hst, hr]
    have hs : committedInitState (alignedDesc desc0) bd = RState.genericRead := by
      rw [committedInitState_noData _ bd hd0, hp]
      decide
    exact ⟨_, _, rfl, fun hcon => absurd hcon hr, fun _ => ⟨by simp [hp, hs], hs⟩⟩

/-- Witness for amended C5: a CPU-read staging buffer lands in the readback
heap in state CopyDestination. -/
theorem staging_heap_placement_witness :
    ∃ (obj : BufferObject) (tr : List Event),
      constructBuffer
          { reservedOk := true, committedOk := true, uploadOk := true, mapOk := true }
          { size := 512, bindFlags := 0, usage := Usage.staging,
            cpuAccessFlags := CPU_ACCESS_READ, mode := BufferMode.undefined,
            elementByteStride := 0, immediateContextMask := 1 }
          none = (Except.ok obj, tr) ∧
      (CPU_ACCESS_READ = CPU_ACCESS_READ →
        tr.head? = some (Event.createCommitted HeapType.readback RState.copyDest) ∧
        obj.state = RState.copyDest) ∧
      (CPU_ACCESS_READ ≠ CPU_ACCESS_READ →
        tr.head? = some (Event.createCommitted HeapType.upload RState.genericRead) ∧
        obj.state = RState.genericRead) :=
  staging_heap_placement
    { reservedOk := true, committedOk := true, uploadOk := true, mapOk := true }
    { size := 512, bindFlags := 0, usage := Usage.staging,
      cpuAccessFlags := CPU_ACCESS_READ, mode := BufferMode.undefined,
      elementByteStride := 0, immediateContextMask := 1 }
    none rfl rfl (by decide)

/-- Claim C6: every successfully constructed buffer stores the requested size
rounded up to the alignment computed from usage and bind flags: 1, forced to
the constant-buffer placement alignment by the uniform-buffer bind flag, and
forced to at least the texture-data-pitch alignment for staging buffers with
CPU access flags equal to write; in particular every uniform buffer ends with
a size that is a multiple of the constant-buffer placement alignment. -/
theorem stored_size_is_aligned (dev : DeviceOracle) (desc0 : BufferDesc)
    (bd : Option BufferData)
    (h1 : desc0.usage ≠ Usage.unified)
    (hr : dev.reservedOk = true) (hc : dev.committedOk = true)
    (hup : dev.uploadOk = true) (hmp : dev.mapOk = true) :
    ∃ (obj : BufferObject) (tr : List Event),
      constructBuffer dev desc0 bd = (Except.ok obj, tr) ∧
      obj.desc.size =
        alignUp desc0.size
          (if desc0.usage = Usage.staging ∧ desc0.cpuAccessFlags = CPU_ACCESS_WRITE then
             max
               (if desc0.bindFlags &&& BIND_UNIFORM_BUFFER ≠ 0 then
                  D3D12_CONSTANT_BUFFER_DATA_PLACEMENT_ALIGNMENT
                else 1)
               D3D12_TEXTURE_DATA_PITCH_ALIGNMENT
           else
             if desc0.bindFlags &&& BIND_UNIFORM_BUFFER ≠ 0 then
               D3D12_CONSTANT_BUFFER_DATA_PLACEMENT_ALIGNMENT
             else 1) ∧
      (desc0.bindFlags &&& BIND_UNIFORM_BUFFER ≠ 0 →
        D3D12_CONSTANT_BUFFER_DATA_PLACEMENT_ALIGNMENT ∣ obj.desc.size) := by
  have hdvd : desc0.bindFlags &&& BIND_UNIFORM_BUFFER ≠ 0 →
      D3D12_CONSTANT_BUFFER_DATA_PLACEMENT_ALIGNMENT ∣ (alignedDesc desc0).size := by
    intro huni
    show D3D12_CONSTANT_BUFFER_DATA_PLACEMENT_ALIGNMENT ∣
      alignUp desc0.size (computeBufferAlignment desc0)
    rw [computeBufferAlignment_uniform desc0 huni]
    exact dvd_alignUp _ _
  by_cases hdyn : desc0.usage = Usage.dynamic ∧ desc0.bindFlags &&& BIND_UNORDERED_ACCESS = 0 ∧
      (desc0.mode = BufferMode.undefined ∨ desc0.mode = BufferMode.structured)
  · refine ⟨{ desc := alignedDesc desc0, state := RState.genericRead,
              hasD3D12Resource := false }, [], ?_, rfl, hdvd⟩
    unfold constructBuffer
    rw [if_neg h1, if_pos hdyn]
  · by_cases hsp : desc0.usage = Usage.sparse
    · refine ⟨{ desc := alignedDesc desc0, state := RState.undefined,
                hasD3D12Resource := true }, [Event.createReserved RState.unknown], ?_, rfl, hdvd⟩
      unfold constructBuffer
      rw [if_neg h1, if_neg hdyn, if_pos hsp]
      simp [hr]
    · rw [constructBuffer_committed dev desc0 bd h1 hdyn hsp]
      by_cases hd : 0 < initialDataSize bd (alignedDesc desc0).size
      · rw [committedBufferPath_withData dev _ bd hc hup hmp hd]
        exact ⟨_, _, rfl, rfl, hdvd⟩
      · have hd0 : initialDataSize bd (alignedDesc desc0).size = 0 :=
          Nat.eq_zero_of_not_pos hd
        rw [committedBufferPath_noData dev _ bd hc hd0]
        exact ⟨_, _, rfl, rfl, hdvd⟩

/-- Witness for C6: a 100-byte uniform buffer is padded to 256 bytes. -/
theorem stored_size_is_aligned_witness :
    (∃ (obj : BufferObject) (tr : List Event),
      constructBuffer
          { reservedOk := true, committedOk := true, uploadOk := true, mapOk := true }
          { size := 100, bindFlags := BIND_UNIFORM_BUFFER, usage := Usage.default,
            cpuAccessFlags := 0, mode := BufferMode.undefined, elementByteStride := 0,
            immediateContextMask := 1 }
          none = (Except.ok obj, tr) ∧
      obj.desc.size =
        alignUp 100
          (if Usage.default = Usage.staging ∧ (0 : Nat) = CPU_ACCESS_WRITE then
             max
               (if BIND_UNIFORM_BUFFER &&& BIND_UNIFORM_BUFFER ≠ 0 then
                  D3D12_CONSTANT_BUFFER_DATA_PLACEMENT_ALIGNMENT
                else 1)
               D3D12_TEXTURE_DATA_PITCH_ALIGNMENT
           else
             if BIND_UNIFORM_BUFFER &&& BIND_UNIFORM_BUFFER ≠ 0 then
               D3D12_CONSTANT_BUFFER_DATA_PLACEMENT_ALIGNMENT
             else 1) ∧
      (BIND_UNIFORM_BUFFER &&& BIND_UNIFORM_BUFFER ≠ 0 →
        D3D12_CONSTANT_BUFFER_DATA_PLACEMENT_ALIGNMENT ∣ obj.desc.size)) :=
  stored_size_is_aligned
    { reservedOk := true, committedOk := true, uploadOk := true, mapOk := true }
    { size := 100, bindFlags := BIND_UNIFORM_BUFFER, usage := Usage.default,
      cpuAccessFlags := 0, mode := BufferMode.undefined, elementByteStride := 0,
      immediateContextMask := 1 }
    none (by decide) rfl rfl rfl rfl

/-- Counterexample to C7 as stated: with offset 0 and size 0 on a buffer of
size 66048 (a multiple of the 256-byte alignment, larger than the 65536-byte
hardware maximum), the native view size is clamped to 65536 and falls short of
the buffer size by 512, so the view's addressable range does not reproduce the
buffer size within one alignment of rounding. -/
theorem cbv_clamped_beyond_hardware_max :
    (createCBV 66048 0 0).2 = 65536 ∧
    (createCBV 66048 0 0).2 + D3D12_TEXTURE_DATA_PITCH_ALIGNMENT ≤ 66048 := by
  refine ⟨rfl, by decide⟩

/-- Claim C7 (amended): `CreateCBV` flags a non-pitch-aligned offset as a
checked violation; a zero size defaults to
`min(bufferSize - offset, D3D12_REQ_CONSTANT_BUFFER_ELEMENT_COUNT * 16)`;
the native view size is the effective size rounded up to the pitch alignment;
and for offset 0, size 0 the view range reproduces the buffer size within one
alignment of rounding provided the buffer size does not exceed the 65536-byte
hardware maximum (beyond it the range is clamped). -/
theorem cbv_effective_size (bufferSize offset size : Nat) :
    ((createCBV bufferSize offset size).1.1 = true ↔
      offset % D3D12_TEXTURE_DATA_PITCH_ALIGNMENT = 0) ∧
    (size = 0 →
      (createCBV bufferSize offset size).2 =
        alignUp (min (bufferSize - offset) (D3D12_REQ_CONSTANT_BUFFER_ELEMENT_COUNT * 16))
          D3D12_TEXTURE_DATA_PITCH_ALIGNMENT) ∧
    (size ≠ 0 →
      (createCBV bufferSize offset size).2 =
        alignUp size D3D12_TEXTURE_DATA_PITCH_ALIGNMENT) ∧
    (offset = 0 → size = 0 →
      bufferSize ≤ D3D12_REQ_CONSTANT_BUFFER_ELEMENT_COUNT * 16 →
      bufferSize ≤ (createCBV bufferSize offset size).2 ∧
      (createCBV bufferSize offset size).2 <
        bufferSize + D3D12_TEXTURE_DATA_PITCH_ALIGNMENT) := by
  refine ⟨?_, ?_, ?_, ?_⟩
  · simp [createCBV]
  · intro h
    simp [createCBV, h]
  · intro h
    simp [createCBV, h]
  · intro h0 hs hle
    subst h0 hs
    have hmin : min bufferSize (D3D12_REQ_CONSTANT_BUFFER_ELEMENT_COUNT * 16) =
        bufferSize := Nat.min_eq_left hle
    have hval : (createCBV bufferSize 0 0).2 =
        alignUp bufferSize D3D12_TEXTURE_DATA_PITCH_ALIGNMENT := by
      simp [createCBV, hmin]
    rw [hval]
    exact ⟨le_alignUp _ _ (by decide), alignUp_lt _ _ (by decide)⟩

/-- Witness for amended C7: a 300-byte buffer yields a 512-byte view range,
which covers 300 and overshoots by less than one alignment. -/
theorem cbv_effective_size_witness :
    (createCBV 300 0 0).2 = 512 ∧ 300 ≤ (createCBV 300 0 0).2 ∧
    (createCBV 300 0 0).2 < 300 + D3D12_TEXTURE_DATA_PITCH_ALIGNMENT := by
  have h := (cbv_effective_size 300 0 0).2.2.2 rfl rfl (by decide)
  exact ⟨rfl, h.1, h.2⟩

/-- Claim C8: a validation failure during on-demand shader-resource or
unordered-access view creation is recoverable: the error is logged, the out
view stays null, no exception escapes (the function returns normally), and
the buffer object is unchanged. -/
theorem view_validation_failure_recoverable (b : BufferObject) (v : BufferViewDesc)
    (e : String)
    (hty : v.viewType = BufferViewType.unorderedAccess ∨
           v.viewType = BufferViewType.shaderResource)
    (hval : validateAndCorrectBufferViewDesc b.desc v = Except.error e) :
    createViewInternal b v = (b, none, ["Failed to create view"]) := by
  rcases hty with h | h <;> simp [createViewInternal, h, hval]

/-- Witness for C8: an unordered-access view on a raw-mode buffer with zero
element stride (under a bind flag requiring a stride) is rejected: null view,
one logged error, buffer untouched. -/
theorem view_validation_failure_recoverable_witness :
    createViewInternal
        { desc := { size := 256, bindFlags := BIND_UNORDERED_ACCESS, usage := Usage.default,
                    cpuAccessFlags := 0, mode := BufferMode.raw, elementByteStride := 0,
                    immediateContextMask := 1 },
          state := RState.undefined, hasD3D12Resource := true }
        { viewType := BufferViewType.unorderedAccess, byteOffset := 0, byteWidth := 0 } =
      ({ desc := { size := 256, bindFlags := BIND_UNORDERED_ACCESS, usage := Usage.default,
                   cpuAccessFlags := 0, mode := BufferMode.raw, elementByteStride := 0,
                   immediateContextMask := 1 },
         state := RState.undefined, hasD3D12Resource := true }, none,
       ["Failed to create view"]) :=
  view_validation_failure_recoverable
    { desc := { size := 256, bindFlags := BIND_UNORDERED_ACCESS, usage := Usage.default,
                cpuAccessFlags := 0, mode := BufferMode.raw, elementByteStride := 0,
                immediateContextMask := 1 },
      state := RState.undefined, hasD3D12Resource := true }
    { viewType := BufferViewType.unorderedAccess, byteOffset := 0, byteWidth := 0 }
    "Buffer element byte stride is zero" (Or.inl rfl) rfl

/-- The committed path always assigns a known tracked state (lines 146-147
default a still-unknown state to Undefined before the resource is created). -/
theorem committedInitState_ne_unknown (d : BufferDesc) (bd : Option BufferData) :
    committedInitState d bd ≠ RState.unknown := by
  by_cases hd : 0 < initialDataSize bd d.size
  · simp [committedInitState, hd]
  · cases hp : heapPlacement d <;>
      simp [committedInitState, hd, hp, heapPlacementState]

/-- Counterexample to C9: the wrapping constructor that attaches an existing
native buffer performs `SetState(InitialState)` with the caller-supplied
state; called with state Unknown it completes with the buffer not in a known
state — a reachable completed-constructor situation that is not the
post-sparse-allocation interval. -/
theorem attached_buffer_can_end_unknown :
    isInKnownState
        (constructBufferFromResource
          { size := 0, bindFlags := 0, usage := Usage.default, cpuAccessFlags := 0,
            mode := BufferMode.undefined, elementByteStride := 0,
            immediateContextMask := 1 }
          RState.unknown
          { width := 256, allowUnorderedAccess := false, denyShaderResource := true }) =
      false := by
  decide

/-- Claim C9 (amended): for every successful run of the allocating
constructor, the buffer ends construction in a known state, the only native
resource created while the tracked state was still unknown is the sparse
(reserved) resource, and every committed resource is created with a known
state already assigned.  (The wrapping constructor instead adopts the
caller-supplied state, which may be Unknown.) -/
theorem allocating_constructor_known_state (dev : DeviceOracle) (desc0 : BufferDesc)
    (bd : Option BufferData) (obj : BufferObject) (tr : List Event)
    (h : constructBuffer dev desc0 bd = (Except.ok obj, tr)) :
    isInKnownState obj = true ∧
    (∀ st : RState, Event.createReserved st ∈ tr → st = RState.unknown) ∧
    (∀ (hp : HeapType) (st : RState), Event.createCommitted hp st ∈ tr →
      st ≠ RState.unknown) := by
  by_cases h1 : desc0.usage = Usage.unified
  · unfold constructBuffer at h
    rw [if_pos h1] at h
    exact absurd h (by simp)
  by_cases hdyn : desc0.usage = Usage.dynamic ∧ desc0.bindFlags &&& BIND_UNORDERED_ACCESS = 0 ∧
      (desc0.mode = BufferMode.undefined ∨ desc0.mode = BufferMode.structured)
  · unfold constructBuffer at h
    rw [if_neg h1, if_pos hdyn] at h
    simp only [Prod.mk.injEq, Except.ok.injEq] at h
    obtain ⟨ho, htr⟩ := h
    subst ho htr
    refine ⟨rfl, ?_, ?_⟩
    · intro st hst
      simp at hst
    · intro hp st hst
      simp at hst
  by_cases hsp : desc0.usage = Usage.sparse
  · unfold constructBuffer at h
    rw [if_neg h1, if_neg hdyn, if_pos hsp] at h
    by_cases hres : dev.reservedOk = true
    · rw [hres] at h
      simp only [if_true, Prod.mk.injEq, Except.ok.injEq] at h
      obtain ⟨ho, htr⟩ := h
      subst ho htr
      refine ⟨rfl, ?_, ?_⟩
      · intro st hst
        simp at hst
        exact hst
      · intro hp st hst
        simp at hst
    · simp only [Bool.not_eq_true] at hres
      rw [hres] at h
      simp at h
  · rw [constructBuffer_committed dev desc0 bd h1 hdyn hsp] at h
    by_cases hco : dev.committedOk = true
    · by_cases hd : 0 < initialDataSize bd (alignedDesc desc0).size
      · by_cases hup : dev.uploadOk = true
        · by_cases hmp : dev.mapOk = true
          · rw [committedBufferPath_withData dev _ bd hco hup hmp hd] at h
            simp only [Prod.mk.injEq, Except.ok.injEq] at h
            obtain ⟨ho, htr⟩ := h
            subst ho htr
            refine ⟨rfl, ?_, ?_⟩
            · intro st hst
              simp [cbvEventsFor] at hst
            · intro hp st hst
              simp [List.mem_cons] at hst
              rcases hst with ⟨hhp, hstc⟩ | hst
              · simp [hstc]
              · exact absurd hst (by unfold cbvEventsFor; split_ifs <;> simp)
          · unfold committedBufferPath at h
            simp [hco, hd, hup, hmp] at h
        · unfold committedBufferPath at h
          simp [hco, hd, hup] at h
      · have hd0 : initialDataSize bd (alignedDesc desc0).size = 0 :=
          Nat.eq_zero_of_not_pos hd
        rw [committedBufferPath_noData dev _ bd hco hd0] at h
        simp only [Prod.mk.injEq, Except.ok.injEq] at h
        obtain ⟨ho, htr⟩ := h
        subst ho htr
        refine ⟨?_, ?_, ?_⟩
        · simp [isInKnownState]
          exact committedInitState_ne_unknown _ bd
        · intro st hst
          simp [List.mem_cons] at hst
          exact absurd hst (by unfold cbvEventsFor; split_ifs <;> simp)
        · intro hp st hst
          simp [List.mem_cons] at hst
          rcases hst with ⟨hhp, hstc⟩ | hst
          · rw [hstc]
            exact committedInitState_ne_unknown _ bd
          · exact absurd hst (by unfold cbvEventsFor; split_ifs <;> simp)
    · unfold committedBufferPath at h
      simp [hco] at h

/-- Witness for amended C9 at a concrete dynamic-buffer construction. -/
theorem allocating_constructor_known_state_witness :
    isInKnownState
        { desc := { size := 256, bindFlags := BIND_UNIFORM_BUFFER, usage := Usage.dynamic,
                    cpuAccessFlags := CPU_ACCESS_WRITE, mode := BufferMode.undefined,
                    elementByteStride := 0, immediateContextMask := 1 },
          state := RState.genericRead, hasD3D12Resource := false } = true ∧
    (∀ st : RState, Event.createReserved st ∈ ([] : List Event) → st = RState.unknown) ∧
    (∀ (hp : HeapType) (st : RState), Event.createCommitted hp st ∈ ([] : List Event) →
      st ≠ RState.unknown) :=
  allocating_constructor_known_state
    { reservedOk := true, committedOk := true, uploadOk := true, mapOk := true }
    { size := 100, bindFlags := BIND_UNIFORM_BUFFER, usage := Usage.dynamic,
      cpuAccessFlags := CPU_ACCESS_WRITE, mode := BufferMode.undefined,
      elementByteStride := 0, immediateContextMask := 1 }
    none
    { desc := { size := 256, bindFlags := BIND_UNIFORM_BUFFER, usage := Usage.dynamic,
                cpuAccessFlags := CPU_ACCESS_WRITE, mode := BufferMode.undefined,
                elementByteStride := 0, immediateContextMask := 1 },
      state := RState.genericRead, hasD3D12Resource := false }
    [] rfl

end Diligent

namespace ShaderSourceFactory

theorem consultLoop_some (fs : List (Option ChildFactory)) (n : String) (s : Nat) :
    consultLoop fs n (some s) = some s := by
  cases fs <;> rfl

theorem consultLoop_eq_firstChildStream (fs : List (Option ChildFactory)) (n : String) :
    consultLoop fs n none = firstChildStream fs n := by
  induction fs with
  | nil => rfl
  | cons f rest ih =>
    cases f with
    | none =>
      simpa [consultLoop, firstChildStream] using ih
    | some ff =>
      simp only [consultLoop, firstChildStream]
      cases hf : ff n with
      | none => simpa using ih
      | some s => simp [consultLoop_some]

/-- Claim C10: for every compound factory and lookup, the file-name
substitution is applied at most once (children are consulted with the
once-substituted name, never with an iterated substitution), the child
factories are consulted in construction order, skipping null entries and
stopping at the first that produces a stream — that stream being the result —
and the failure message is logged exactly when no stream was produced and the
caller passed the SILENT flag. -/
theorem compound_create_input_stream (ci : CompoundCI) (name : String) (silent : Bool) :
    (createInputStream2 (createCompoundFactory ci) name silent).1 =
      firstChildStream (createCompoundFactory ci).pFactories
        (substituteName (createCompoundFactory ci).fileSubstituteMap name) ∧
    ((createInputStream2 (createCompoundFactory ci) name silent).2 ≠ [] ↔
      ((createInputStream2 (createCompoundFactory ci) name silent).1 = none ∧
        silent = true)) := by
  constructor
  · exact consultLoop_eq_firstChildStream _ _
  · by_cases hcond : consultLoop (createCompoundFactory ci).pFactories
        (substituteName (createCompoundFactory ci).fileSubstituteMap name) none = none ∧
        silent = true
    · simp [createInputStream2, hcond]
    · simp [createInputStream2, if_neg hcond]
      intro hnone
      by_contra hne
      exact hcond ⟨hnone, by simpa using hne⟩

end ShaderSourceFactory

